import Mathlib

/-
Shallow embedding of the invoice-management server actions
(src/unnamed/part_000) and the session-gated dashboard layout
(src/app/dashboard/layout.tsx).

Modelling decisions:
- FormData text values are `Option String` (FormData.get returns a string
  or null for the text inputs used here).
- JavaScript Number(string) coercion is modelled by `jsNumber`, which
  returns `none` for NaN (non-numeric-coercible input) and a rational
  otherwise; Number of the empty or all-whitespace string is 0.
- The zod schema `createInvoiceSchema = updateInvoiceSchema =
  formSchema.omit(\x7bid, date\x7d)` is embedded as `safeParse`, which checks
  the three fields independently and collects all field errors, exactly as
  zod object parsing does. Field error messages follow zod v3: the declared
  invalid_type_error fires only for defined non-string data, and the handlers
  always pass a string or undefined, so a missing customerId or status yields
  Required, a non-enum status string yields the default invalid_enum_value
  message, and the amount keeps its declared gt message (NaN and undefined
  get the default number type error).
- The database driver is an explicit capability
  `db : SqlStmt → Except String Unit`; an `Except.error m` models a thrown
  driver error whose `.message` is `m`. The statements a handler actually
  issues are recorded in `stmts`, the paths passed to revalidatePath in
  `revalidated`, and anything the handler re-raises in `thrown`.
- The row-level meaning of the UPDATE ... SET col = COALESCE(param, col)
  statement is `applyUpdate`; `execUpdate` applies it to every row matching
  the WHERE id filter.
-/

namespace Nextapp

/-- Invoice status: the zod enum with values pending and paid. -/
inductive Status where
  | pending
  | paid
deriving DecidableEq, Repr

/-- Raw form input as read by formData.get: each text field is a string or null. -/
structure RawForm where
  customerId : Option String
  amount : Option String
  status : Option String
deriving DecidableEq, Repr

/-- Digit accumulator: evaluates a list of decimal digit characters, failing on any non-digit. -/
def digitsToNat : List Char → Nat → Option Nat
  | [], acc => some acc
  | c :: cs, acc =>
    if c.isDigit then digitsToNat cs (acc * 10 + (c.toNat - 48)) else none

/-- Splits a character list at a single decimal point; fails when two or more points occur. -/
def splitOnDot : List Char → Option (List Char × List Char)
  | [] => some ([], [])
  | c :: cs =>
    if c = '.' then
      if cs.contains '.' then none else some ([], cs)
    else
      match splitOnDot cs with
      | some (ip, fp) => some (c :: ip, fp)
      | none => none

/-- Value of a signed decimal numeral with integer part ip and fractional part fp. -/
def decToRat (neg : Bool) (ip fp : List Char) : Option ℚ :=
  if ip.isEmpty && fp.isEmpty then none
  else
    match digitsToNat ip 0, digitsToNat fp 0 with
    | some i, some f =>
        let k := fp.length
        let n : Int := (i * 10 ^ k + f : ℕ)
        some (mkRat (if neg then -n else n) (10 ^ k))
    | _, _ => none

/-- Whitespace as stripped by JavaScript Number coercion. -/
def jsWs (c : Char) : Bool :=
  c = ' ' || c = '\t' || c = '\n' || c = '\r'

/-- Strips leading and trailing whitespace from a character list. -/
def trimChars (cs : List Char) : List Char :=
  ((cs.dropWhile jsWs).reverse.dropWhile jsWs).reverse

/-- JavaScript Number(string) coercion on decimal numerals: none models NaN,
the empty (or all-whitespace) string coerces to 0. -/
def jsNumber (s : String) : Option ℚ :=
  let t := trimChars s.data
  if t.isEmpty then some 0
  else
    match t with
    | '-' :: rest =>
        match splitOnDot rest with
        | some (ip, fp) => decToRat true ip fp
        | none => none
    | '+' :: rest =>
        match splitOnDot rest with
        | some (ip, fp) => decToRat false ip fp
        | none => none
    | rest =>
        match splitOnDot rest with
        | some (ip, fp) => decToRat false ip fp
        | none => none

/-- Input object built by the handlers and passed to safeParse: customerId and
status via optional toString, amount as Number(raw) when raw is non-null and
undefined otherwise (the inner none models NaN). -/
structure ParseInput where
  customerId : Option String
  amount : Option (Option ℚ)
  status : Option String
deriving DecidableEq, Repr

/-- Normalization step of the handlers, lines 80-84 and 129-133 of the source. -/
def toParseInput (formData : RawForm) : ParseInput :=
  { customerId := formData.customerId
    amount := formData.amount.map jsNumber
    status := formData.status }

/-- Per-field error lists as produced by error.flatten().fieldErrors; a field
with no violations has the empty list (the key is absent in the source map). -/
structure FieldErrors where
  customerId : List String
  amount : List String
  status : List String
deriving DecidableEq, Repr

/-- Result of createInvoiceSchema.safeParse / updateInvoiceSchema.safeParse. -/
inductive ParseResult where
  | ok (customerId : String) (amount : ℚ) (status : Status)
  | err (errors : FieldErrors)
deriving DecidableEq, Repr

/-- Field rule for customerId: z.string. The handlers pass a string or
undefined; in zod v3 an undefined input reports the required_error default
Required, not the declared invalid_type_error (which fires only for defined
non-string data, unreachable here). -/
def checkCustomerId : Option String → Except (List String) String
  | some s => Except.ok s
  | none => Except.error ["Required"]

/-- Field rule for amount: z.coerce.number().gt(0). Number(undefined) and NaN
fail the number type check; a numeric value must be strictly positive. -/
def checkAmount : Option (Option ℚ) → Except (List String) ℚ
  | some (some q) =>
      if 0 < q then Except.ok q
      else Except.error ["Please enter an amount greater than $0."]
  | some none => Except.error ["Expected number, received nan"]
  | none => Except.error ["Expected number, received nan"]

/-- Field rule for status: z.enum of pending and paid. The handlers pass a
string or undefined, so in zod v3 a missing value reports the required_error
default Required (the declared invalid_type_error fires only for defined
non-string data, unreachable here) and any other string reports the default
invalid_enum_value message. -/
def checkStatus (x : Option String) : Except (List String) Status :=
  match x with
  | none => Except.error ["Required"]
  | some s =>
      if s = "pending" then Except.ok Status.pending
      else if s = "paid" then Except.ok Status.paid
      else Except.error
        ["Invalid enum value. Expected 'pending' | 'paid', received '" ++ s ++ "'"]

/-- Error component of a field check: empty when the field passed. -/
def errsOf {α : Type} : Except (List String) α → List String
  | Except.error e => e
  | Except.ok _ => []

/-- Embedding of createInvoiceSchema.safeParse (identical to
updateInvoiceSchema.safeParse): all three fields are checked and every
violation is collected. -/
def safeParse (i : ParseInput) : ParseResult :=
  match checkCustomerId i.customerId, checkAmount i.amount, checkStatus i.status with
  | Except.ok c, Except.ok a, Except.ok s => ParseResult.ok c a s
  | rc, ra, rs => ParseResult.err ⟨errsOf rc, errsOf ra, errsOf rs⟩

/-- Caller-facing result shape (the exported State type of the source). -/
structure State where
  errors : Option FieldErrors
  message : Option String
deriving DecidableEq, Repr

/-- Marker for the SQL literal now() used for the date column on insert. -/
inductive SqlDate where
  | serverNow
deriving DecidableEq, Repr

/-- Parameterized statements the handlers can issue. Parameters are Option
because the source converts undefined to null before binding. -/
inductive SqlStmt where
  | insertInvoice (customerId : Option String) (amount : Option ℚ) (status : Option Status) (date : SqlDate)
  | updateInvoice (id : String) (customerId : Option String) (amount : Option ℚ) (status : Option Status)
  | deleteInvoice (id : String)
deriving DecidableEq, Repr

/-- Observable outcome of one handler invocation: the returned State, the
persistence statements issued, the paths revalidated, and any error the
handler re-raised instead of catching. -/
structure HandlerOutcome where
  result : State
  stmts : List SqlStmt
  revalidated : List String
  thrown : Option String
deriving DecidableEq, Repr

/-- Embedding of createInvoice (source lines 71-110). The prevState argument
of the source is ignored by the code and omitted here. After successful
validation the values are non-null, so the nullish-coalescing conversion to
null yields some of each value. -/
def createInvoice (db : SqlStmt → Except String Unit) (formData : RawForm) : HandlerOutcome :=
  match safeParse (toParseInput formData) with
  | ParseResult.err e =>
      { result := { errors := some e, message := some "Missing Fields. Failed to Create Invoice." }
        stmts := [], revalidated := [], thrown := none }
  | ParseResult.ok customerId amount status =>
      let stmt := SqlStmt.insertInvoice (some customerId) (some amount) (some status) SqlDate.serverNow
      match db stmt with
      | Except.ok _ =>
          { result := { errors := none, message := some "Invoice created successfully" }
            stmts := [stmt], revalidated := ["/invoices"], thrown := none }
      | Except.error m =>
          { result := { errors := none, message := some ("Error creating invoice: " ++ m) }
            stmts := [stmt], revalidated := [], thrown := none }

/-- Embedding of updateInvoice (source lines 117-163). The JavaScript guard
if (:id) on a string is true exactly for the empty string. -/
def updateInvoice (db : SqlStmt → Except String Unit) (id : String) (formData : RawForm) : HandlerOutcome :=
  if id = "" then
    { result := { errors := none, message := some "Invoice ID is required." }
      stmts := [], revalidated := [], thrown := none }
  else
    match safeParse (toParseInput formData) with
    | ParseResult.err e =>
        { result := { errors := some e, message := some "Missing fields. Failed to update invoice." }
          stmts := [], revalidated := [], thrown := none }
    | ParseResult.ok customerId amount status =>
        let stmt := SqlStmt.updateInvoice id (some customerId) (some amount) (some status)
        match db stmt with
        | Except.ok _ =>
            { result := { errors := none, message := some "Invoice updated successfully" }
              stmts := [stmt], revalidated := ["/invoices"], thrown := none }
        | Except.error m =>
            { result := { errors := none, message := some ("Error updating invoice: " ++ m) }
              stmts := [stmt], revalidated := [], thrown := none }

/-- Embedding of deleteInvoice (source lines 168-178). -/
def deleteInvoice (db : SqlStmt → Except String Unit) (id : String) : HandlerOutcome :=
  if id = "" then
    { result := { errors := none, message := some "Invoice ID is required." }
      stmts := [], revalidated := [], thrown := none }
  else
    let stmt := SqlStmt.deleteInvoice id
    match db stmt with
    | Except.ok _ =>
        { result := { errors := none, message := some "Invoice deleted successfully" }
          stmts := [stmt], revalidated := ["/invoices"], thrown := none }
    | Except.error m =>
        { result := { errors := none, message := some ("Error deleting invoice: " ++ m) }
          stmts := [stmt], revalidated := [], thrown := none }

/-- Stored invoice row at the persistence layer. -/
structure InvoiceRow where
  id : String
  customer_id : String
  amount : ℚ
  status : Status
  date : String
deriving DecidableEq, Repr

/-- Row-level meaning of the UPDATE statement issued by updateInvoice
(source lines 150-157): each column is set to COALESCE(param, column). -/
def applyUpdate (cid : Option String) (amt : Option ℚ) (st : Option Status) (r : InvoiceRow) : InvoiceRow :=
  { r with
    customer_id := cid.getD r.customer_id
    amount := amt.getD r.amount
    status := st.getD r.status }

/-- Table-level meaning of the UPDATE statement: applyUpdate on every row
matching the WHERE id filter, other rows untouched. -/
def execUpdate (id : String) (cid : Option String) (amt : Option ℚ) (st : Option Status)
    (rows : List InvoiceRow) : List InvoiceRow :=
  rows.map fun r => if r.id = id then applyUpdate cid amt st r else r

/-- Driver errors carried by the signIn capability, mirroring AuthError.type. -/
inductive AuthErrorKind where
  | credentialsSignin
  | otherAuthError (t : String)
deriving DecidableEq, Repr

/-- Possible outcomes of the external signIn capability: success, a thrown
AuthError of some kind, or a thrown value that is not an AuthError. -/
inductive SignInOutcome where
  | success
  | authFailure (k : AuthErrorKind)
  | unrecognizedFailure (e : String)
deriving DecidableEq, Repr

/-- What authenticate does overall: return a message or re-raise. -/
inductive AuthResult where
  | returned (msg : String)
  | raised (e : String)
deriving DecidableEq, Repr

/-- Embedding of authenticate (source lines 48-66), parameterized by the
outcome of the awaited signIn call. -/
def authenticate (signInResult : SignInOutcome) : AuthResult :=
  match signInResult with
  | SignInOutcome.success => AuthResult.returned "Success"
  | SignInOutcome.authFailure AuthErrorKind.credentialsSignin =>
      AuthResult.returned "Invalid credentials."
  | SignInOutcome.authFailure (AuthErrorKind.otherAuthError _) =>
      AuthResult.returned "Something went wrong."
  | SignInOutcome.unrecognizedFailure e => AuthResult.raised e

/-- Opaque session object; only presence or absence matters to the gate. -/
structure Session where
  user : String
deriving DecidableEq, Repr

/-- What the layout produces: a redirect effect or the rendered page body. -/
inductive RenderResult where
  | redirectTo (path : String)
  | view (children : String)
deriving DecidableEq, Repr

/-- Embedding of the dashboard Layout (src/app/dashboard/layout.tsx),
parameterized by the session returned by the auth capability. -/
def Layout (session : Option Session) (children : String) : RenderResult :=
  match session with
  | none => RenderResult.redirectTo "/login"
  | some _ => RenderResult.view children

/-- Always-succeeding persistence capability. -/
def dbOk : SqlStmt → Except String Unit := fun _ => Except.ok ()

/-- Persistence capability that fails every statement with message m. -/
def dbFail (m : String) : SqlStmt → Except String Unit := fun _ => Except.error m

/-- Raw amount values rejected by validation: missing, non-numeric-coercible,
or coercing to a value less than or equal to zero. -/
def amountRejected : Option String → Bool
  | none => true
  | some s =>
      match jsNumber s with
      | none => true
      | some q => decide (q ≤ 0)

/-- Raw status values rejected by validation: missing or not exactly one of
the enum values. -/
def statusRejected : Option String → Bool
  | none => true
  | some s => !(s == "pending" || s == "paid")

/-- True when the returned State carries at least one errors.amount entry. -/
def hasAmountError (st : State) : Bool :=
  match st.errors with
  | some e => !e.amount.isEmpty
  | none => false

/-- True when the returned State carries at least one errors.status entry. -/
def hasStatusError (st : State) : Bool :=
  match st.errors with
  | some e => !e.status.isEmpty
  | none => false

/-- The concrete Create input used in the specification example. -/
def form1 : RawForm :=
  { customerId := some "cust-1", amount := some "49.99", status := some "paid" }

end Nextapp

namespace Nextapp

/-- Helper: a rejected raw amount makes the amount field check fail. -/
lemma checkAmount_of_amountRejected (raw : Option String)
    (h : amountRejected raw = true) :
    ∃ l, l ≠ [] ∧ checkAmount (raw.map jsNumber) = Except.error l := by
  cases raw with
  | none =>
      exact ⟨["Expected number, received nan"], by simp, rfl⟩
  | some s =>
      cases hj : jsNumber s with
      | none =>
          refine ⟨["Expected number, received nan"], by simp, ?_⟩
          simp [checkAmount, hj]
      | some q =>
          have hq : q ≤ 0 := by
            have h2 : amountRejected (some s) = true := h
            simp only [amountRejected, hj, decide_eq_true_eq] at h2
            exact h2
          refine ⟨["Please enter an amount greater than $0."], by simp, ?_⟩
          simp [checkAmount, hj, not_lt.mpr hq]

/-- Helper: safeParse fails and reports the amount errors whenever the amount
check fails, whatever the other fields do. -/
lemma safeParse_amount_err (i : ParseInput) (l : List String)
    (h : checkAmount i.amount = Except.error l) :
    ∃ e : FieldErrors, safeParse i = ParseResult.err e ∧ e.amount = l := by
  refine ⟨⟨errsOf (checkCustomerId i.customerId), l, errsOf (checkStatus i.status)⟩, ?_, rfl⟩
  unfold safeParse
  rw [h]
  cases checkCustomerId i.customerId <;> cases checkStatus i.status <;> simp [errsOf]

/-- Helper: safeParse fails and reports the status errors whenever the status
check fails, whatever the other fields do. -/
lemma safeParse_status_err (i : ParseInput) (l : List String)
    (h : checkStatus i.status = Except.error l) :
    ∃ e : FieldErrors, safeParse i = ParseResult.err e ∧ e.status = l := by
  refine ⟨⟨errsOf (checkCustomerId i.customerId), errsOf (checkAmount i.amount), l⟩, ?_, rfl⟩
  unfold safeParse
  rw [h]
  cases checkCustomerId i.customerId <;> cases checkAmount i.amount <;> simp [errsOf]

/-- Helper: safeParse succeeds exactly when all three field checks succeed. -/
lemma safeParse_ok_iff (i : ParseInput) (c : String) (a : ℚ) (s : Status) :
    safeParse i = ParseResult.ok c a s ↔
      checkCustomerId i.customerId = Except.ok c ∧
      checkAmount i.amount = Except.ok a ∧
      checkStatus i.status = Except.ok s := by
  unfold safeParse
  cases checkCustomerId i.customerId <;> cases checkAmount i.amount <;>
    cases checkStatus i.status <;> simp

/-- Helper: the amount check succeeds only on a positive numeric input, and
returns that input unchanged. -/
lemma checkAmount_ok (x : Option (Option ℚ)) (a : ℚ)
    (h : checkAmount x = Except.ok a) : x = some (some a) ∧ 0 < a := by
  cases x with
  | none => simp [checkAmount] at h
  | some o =>
      cases o with
      | none => simp [checkAmount] at h
      | some q =>
          by_cases hq : 0 < q
          · simp [checkAmount, hq] at h
            subst h
            exact ⟨rfl, hq⟩
          · simp [checkAmount, hq] at h

/-- Helper: createInvoice on a validation failure returns the field errors and
issues no statement. -/
lemma createInvoice_err (db : SqlStmt → Except String Unit) (formData : RawForm)
    (e : FieldErrors) (h : safeParse (toParseInput formData) = ParseResult.err e) :
    createInvoice db formData =
      ⟨⟨some e, some "Missing Fields. Failed to Create Invoice."⟩, [], [], none⟩ := by
  simp [createInvoice, h]

/-- Helper: updateInvoice with a non-empty id on a validation failure returns
the field errors and issues no statement. -/
lemma updateInvoice_err (db : SqlStmt → Except String Unit) (id : String)
    (formData : RawForm) (e : FieldErrors) (hid : id ≠ "")
    (h : safeParse (toParseInput formData) = ParseResult.err e) :
    updateInvoice db id formData =
      ⟨⟨some e, some "Missing fields. Failed to update invoice."⟩, [], [], none⟩ := by
  simp [updateInvoice, hid, h]

/-- Helper: a validated createInvoice call issues exactly the INSERT with the
validated values. -/
lemma createInvoice_ok_stmts (db : SqlStmt → Except String Unit)
    (formData : RawForm) (c : String) (a : ℚ) (s : Status)
    (h : safeParse (toParseInput formData) = ParseResult.ok c a s) :
    (createInvoice db formData).stmts =
      [SqlStmt.insertInvoice (some c) (some a) (some s) SqlDate.serverNow] := by
  simp only [createInvoice, h]
  cases db (SqlStmt.insertInvoice (some c) (some a) (some s) SqlDate.serverNow) <;> rfl

/-- Helper: a validated updateInvoice call issues exactly the UPDATE with the
validated values. -/
lemma updateInvoice_ok_stmts (db : SqlStmt → Except String Unit) (id : String)
    (formData : RawForm) (c : String) (a : ℚ) (s : Status) (hid : id ≠ "")
    (h : safeParse (toParseInput formData) = ParseResult.ok c a s) :
    (updateInvoice db id formData).stmts =
      [SqlStmt.updateInvoice id (some c) (some a) (some s)] := by
  simp only [updateInvoice, if_neg hid, h]
  cases db (SqlStmt.updateInvoice id (some c) (some a) (some s)) <;> rfl

/-- Claim C1: whenever the raw amount field is missing, coerces to a value at
most zero, or is not numerically coercible, createInvoice and updateInvoice
(called with a non-empty id) return a result carrying an errors.amount entry
and issue no persistence statement, so the database is unchanged. -/
theorem C1_amount_rejected_no_persistence
    (db : SqlStmt → Except String Unit) (formData : RawForm) (id : String)
    (hid : id ≠ "") (h : amountRejected formData.amount = true) :
    hasAmountError (createInvoice db formData).result = true ∧
    (createInvoice db formData).stmts = [] ∧
    hasAmountError (updateInvoice db id formData).result = true ∧
    (updateInvoice db id formData).stmts = [] := by
  obtain ⟨l, hl, hca⟩ := checkAmount_of_amountRejected formData.amount h
  have hx : checkAmount (toParseInput formData).amount = Except.error l := hca
  obtain ⟨e, hsp, hea⟩ := safeParse_amount_err _ l hx
  rw [createInvoice_err db formData e hsp, updateInvoice_err db id formData e hid hsp]
  simp [hasAmountError, hea, hl]

/-- Claim C1 witness at a concrete rejected amount. -/
theorem C1_witness :
    ("inv1" : String) ≠ "" ∧
    amountRejected (RawForm.mk (some "c") (some "-5") (some "paid")).amount = true ∧
    hasAmountError (createInvoice dbOk (RawForm.mk (some "c") (some "-5") (some "paid"))).result = true :=
  ⟨by decide, by decide,
    (C1_amount_rejected_no_persistence dbOk
      (RawForm.mk (some "c") (some "-5") (some "paid")) "inv1" (by decide) (by decide)).1⟩

/-- Claim C8 counterexample: at the non-enum status overdue the recorded
errors.status message is the zod default invalid_enum_value text, not the
message the schema declares through invalid_type_error (the handlers pass a
string or undefined, so the declared message is unreachable). -/
theorem C8_counterexample :
    (createInvoice dbOk (RawForm.mk (some "c") (some "5") (some "overdue"))).result.errors =
      some ⟨[], [],
        ["Invalid enum value. Expected 'pending' | 'paid', received 'overdue'"]⟩ ∧
    ["Invalid enum value. Expected 'pending' | 'paid', received 'overdue'"] ≠
      ["Please select an invoice status."] :=
  ⟨by decide, by decide⟩

/-- Claim C8 amended: whenever the raw status value is missing or not exactly
pending or paid, createInvoice and updateInvoice (called with a non-empty id)
return a result carrying a non-empty errors.status entry, whose message is the
zod v3 default: Required for a missing status, the invalid_enum_value text for
any other string. -/
theorem C8_status_rejected_actual_message
    (db : SqlStmt → Except String Unit) (formData : RawForm) (id : String)
    (hid : id ≠ "") (h : statusRejected formData.status = true) :
    ∃ l, l ≠ [] ∧
      (match formData.status with
        | none => l = ["Required"]
        | some s =>
            l = ["Invalid enum value. Expected 'pending' | 'paid', received '" ++ s ++ "'"]) ∧
      (∃ e, (createInvoice db formData).result.errors = some e ∧ e.status = l) ∧
      (∃ e, (updateInvoice db id formData).result.errors = some e ∧ e.status = l) := by
  have hcs : ∃ l, l ≠ [] ∧ checkStatus formData.status = Except.error l ∧
      (match formData.status with
        | none => l = ["Required"]
        | some s =>
            l = ["Invalid enum value. Expected 'pending' | 'paid', received '" ++ s ++ "'"]) := by
    cases hs : formData.status with
    | none => exact ⟨["Required"], by simp, rfl, rfl⟩
    | some s =>
        have h2 : ¬s = "pending" ∧ ¬s = "paid" := by
          rw [hs] at h
          simp only [statusRejected] at h
          simpa using h
        refine ⟨_, by simp, ?_, rfl⟩
        simp [checkStatus, h2.1, h2.2]
  obtain ⟨l, hl, hcst, hmatch⟩ := hcs
  have hx : checkStatus (toParseInput formData).status = Except.error l := hcst
  obtain ⟨e, hsp, hes⟩ := safeParse_status_err _ l hx
  rw [createInvoice_err db formData e hsp, updateInvoice_err db id formData e hid hsp]
  exact ⟨l, hl, hmatch, ⟨e, rfl, hes⟩, ⟨e, rfl, hes⟩⟩

/-- Claim C8 witness at a concrete rejected status. -/
theorem C8_witness :
    ∃ l, l ≠ [] ∧
      (match (RawForm.mk (some "c") (some "5") (some "overdue")).status with
        | none => l = ["Required"]
        | some s =>
            l = ["Invalid enum value. Expected 'pending' | 'paid', received '" ++ s ++ "'"]) ∧
      (∃ e, (createInvoice dbOk (RawForm.mk (some "c") (some "5") (some "overdue"))).result.errors =
        some e ∧ e.status = l) ∧
      (∃ e, (updateInvoice dbOk "inv1" (RawForm.mk (some "c") (some "5") (some "overdue"))).result.errors =
        some e ∧ e.status = l) :=
  C8_status_rejected_actual_message dbOk
    (RawForm.mk (some "c") (some "5") (some "overdue")) "inv1" (by decide) (by decide)

end Nextapp

namespace Nextapp

/-- Claim C2 counterexample: on the successfully validated input with caller
amount 49.99, the INSERT binds the decimal 49.99 = 4999/100 itself; that bound
value differs from 4999 (the amount in integer minor units) and is not an
integer at all (its reduced denominator is 100). -/
theorem C2_counterexample :
    (createInvoice dbOk form1).stmts =
      [SqlStmt.insertInvoice (some "cust-1") (some (mkRat 4999 100))
        (some Status.paid) SqlDate.serverNow] ∧
    mkRat 4999 100 = (4999 : ℚ) / 100 ∧
    mkRat 4999 100 ≠ mkRat 4999 1 ∧
    mkRat 4999 1 = (4999 : ℚ) ∧
    (mkRat 4999 100).den ≠ 1 := by
  refine ⟨by decide, ?_, by decide, ?_, by decide⟩
  · rw [Rat.mkRat_eq_div]; norm_num
  · rw [Rat.mkRat_eq_div]; norm_num

/-- Claim C2 amended: for every successfully validated input, the amount bound
into the INSERT and UPDATE statements is the caller-supplied amount as coerced
to a number (decimal currency units); no conversion to integer minor units is
performed. -/
theorem C2_amount_bound_as_decimal
    (db : SqlStmt → Except String Unit) (formData : RawForm) (id : String)
    (c : String) (a : ℚ) (s : Status) (hid : id ≠ "")
    (h : safeParse (toParseInput formData) = ParseResult.ok c a s) :
    (createInvoice db formData).stmts =
      [SqlStmt.insertInvoice (some c) (some a) (some s) SqlDate.serverNow] ∧
    (updateInvoice db id formData).stmts =
      [SqlStmt.updateInvoice id (some c) (some a) (some s)] ∧
    (∀ raw q, formData.amount = some raw → jsNumber raw = some q → a = q) := by
  refine ⟨createInvoice_ok_stmts db formData c a s h,
    updateInvoice_ok_stmts db id formData c a s hid h, ?_⟩
  intro raw q hraw hq
  obtain ⟨-, hca, -⟩ := (safeParse_ok_iff (toParseInput formData) c a s).mp h
  obtain ⟨hx, -⟩ := checkAmount_ok (toParseInput formData).amount a hca
  have hmap : formData.amount.map jsNumber = some (some a) := hx
  rw [hraw] at hmap
  simp [hq] at hmap
  exact hmap.symm

/-- Claim C2 amended witness at the concrete input of the specification. -/
theorem C2_witness :
    (createInvoice dbOk form1).stmts =
      [SqlStmt.insertInvoice (some "cust-1") (some (mkRat 4999 100))
        (some Status.paid) SqlDate.serverNow] :=
  (C2_amount_bound_as_decimal dbOk form1 "inv1" "cust-1" (mkRat 4999 100)
    Status.paid (by decide) (by decide)).1

/-- Claim C3: the UPDATE statement issued by updateInvoice merges per field: a
null parameter leaves the stored column value unchanged, a non-null parameter
overwrites it, and the id and date columns are untouched. -/
theorem C3_coalesce_merge (cid : Option String) (amt : Option ℚ)
    (st : Option Status) (r : InvoiceRow) :
    (applyUpdate none amt st r).customer_id = r.customer_id ∧
    (applyUpdate cid none st r).amount = r.amount ∧
    (applyUpdate cid amt none r).status = r.status ∧
    (∀ v, (applyUpdate (some v) amt st r).customer_id = v) ∧
    (∀ q, (applyUpdate cid (some q) st r).amount = q) ∧
    (∀ s, (applyUpdate cid amt (some s) r).status = s) ∧
    (applyUpdate cid amt st r).id = r.id ∧
    (applyUpdate cid amt st r).date = r.date := by
  simp [applyUpdate]

/-- Claim C4: every updateInvoice call that passes validation issues an UPDATE
whose three parameters are all non-null, so the statement overwrites all three
columns of the matched row and the keep-previous-value branch of COALESCE is
never exercised through the public interface. -/
theorem C4_validated_update_overwrites
    (db : SqlStmt → Except String Unit) (id : String) (formData : RawForm)
    (c : String) (a : ℚ) (s : Status) (hid : id ≠ "")
    (h : safeParse (toParseInput formData) = ParseResult.ok c a s) :
    (updateInvoice db id formData).stmts =
      [SqlStmt.updateInvoice id (some c) (some a) (some s)] ∧
    (∀ r : InvoiceRow, applyUpdate (some c) (some a) (some s) r =
      { r with customer_id := c, amount := a, status := s }) ∧
    (∀ rows : List InvoiceRow, execUpdate id (some c) (some a) (some s) rows =
      rows.map fun r => if r.id = id then
        { r with customer_id := c, amount := a, status := s } else r) := by
  refine ⟨updateInvoice_ok_stmts db id formData c a s hid h, ?_, ?_⟩
  · intro r
    simp [applyUpdate]
  · intro rows
    simp [execUpdate, applyUpdate]

/-- Claim C4 witness at a concrete validated input. -/
theorem C4_witness :
    (updateInvoice dbOk "inv1" form1).stmts =
      [SqlStmt.updateInvoice "inv1" (some "cust-1") (some (mkRat 4999 100))
        (some Status.paid)] :=
  (C4_validated_update_overwrites dbOk "inv1" form1 "cust-1" (mkRat 4999 100)
    Status.paid (by decide) (by decide)).1

/-- Claim C5: updateInvoice and deleteInvoice with an empty identifier return
exactly the message Invoice ID is required, report no validation errors, issue
no persistence statement, and revalidate nothing. -/
theorem C5_empty_id_short_circuit (db : SqlStmt → Except String Unit)
    (formData : RawForm) :
    updateInvoice db "" formData =
      ⟨⟨none, some "Invoice ID is required."⟩, [], [], none⟩ ∧
    deleteInvoice db "" =
      ⟨⟨none, some "Invoice ID is required."⟩, [], [], none⟩ := by
  exact ⟨rfl, rfl⟩

/-- Claim C6: when the persistence capability fails with message m, each of
createInvoice, updateInvoice and deleteInvoice catches the failure and returns
a message-only result embedding m, re-raising nothing. -/
theorem C6_persistence_failure_caught
    (db : SqlStmt → Except String Unit) (formData : RawForm) (id m : String)
    (c : String) (a : ℚ) (s : Status) (hid : id ≠ "")
    (h : safeParse (toParseInput formData) = ParseResult.ok c a s)
    (hdb : ∀ st, db st = Except.error m) :
    createInvoice db formData =
      ⟨⟨none, some ("Error creating invoice: " ++ m)⟩,
        [SqlStmt.insertInvoice (some c) (some a) (some s) SqlDate.serverNow],
        [], none⟩ ∧
    updateInvoice db id formData =
      ⟨⟨none, some ("Error updating invoice: " ++ m)⟩,
        [SqlStmt.updateInvoice id (some c) (some a) (some s)], [], none⟩ ∧
    deleteInvoice db id =
      ⟨⟨none, some ("Error deleting invoice: " ++ m)⟩,
        [SqlStmt.deleteInvoice id], [], none⟩ := by
  refine ⟨?_, ?_, ?_⟩
  · simp [createInvoice, h, hdb]
  · simp [updateInvoice, hid, h, hdb]
  · simp [deleteInvoice, hid, hdb]

/-- Claim C6 witness at a concrete failing driver. -/
theorem C6_witness :
    deleteInvoice (dbFail "connection refused") "inv1" =
      ⟨⟨none, some "Error deleting invoice: connection refused"⟩,
        [SqlStmt.deleteInvoice "inv1"], [], none⟩ :=
  (C6_persistence_failure_caught (dbFail "connection refused") form1 "inv1"
    "connection refused" "cust-1" (mkRat 4999 100) Status.paid (by decide)
    (by decide) (fun _ => rfl)).2.2

/-- Claim C7: on the specification example input, with any driver that
accepts the resulting INSERT, createInvoice issues exactly that one INSERT
with the normalized values and the date set server-side, revalidates
/invoices, and returns the success message; the bound amount 4999/100 is the
decimal 49.99. -/
theorem C7_create_success_example (db : SqlStmt → Except String Unit)
    (hdb : db (SqlStmt.insertInvoice (some "cust-1") (some (mkRat 4999 100))
      (some Status.paid) SqlDate.serverNow) = Except.ok ()) :
    createInvoice db form1 =
      ⟨⟨none, some "Invoice created successfully"⟩,
        [SqlStmt.insertInvoice (some "cust-1") (some (mkRat 4999 100))
          (some Status.paid) SqlDate.serverNow],
        ["/invoices"], none⟩ ∧
    mkRat 4999 100 = (4999 : ℚ) / 100 := by
  have hp : safeParse (toParseInput form1) =
      ParseResult.ok "cust-1" (mkRat 4999 100) Status.paid := by decide
  refine ⟨?_, by rw [Rat.mkRat_eq_div]; norm_num⟩
  simp [createInvoice, hp, hdb]

/-- Claim C7 witness with the always-succeeding driver. -/
theorem C7_witness :
    createInvoice dbOk form1 =
      ⟨⟨none, some "Invoice created successfully"⟩,
        [SqlStmt.insertInvoice (some "cust-1") (some (mkRat 4999 100))
          (some Status.paid) SqlDate.serverNow],
        ["/invoices"], none⟩ :=
  (C7_create_success_example dbOk rfl).1

/-- Claim C9: authenticate returns Success when signIn succeeds, maps the
CredentialsSignin AuthError to Invalid credentials., maps every other
AuthError to Something went wrong., and re-raises any non-AuthError failure. -/
theorem C9_authenticate_dispatch :
    authenticate SignInOutcome.success = AuthResult.returned "Success" ∧
    authenticate (SignInOutcome.authFailure AuthErrorKind.credentialsSignin) =
      AuthResult.returned "Invalid credentials." ∧
    (∀ t, authenticate (SignInOutcome.authFailure (AuthErrorKind.otherAuthError t)) =
      AuthResult.returned "Something went wrong.") ∧
    (∀ e, authenticate (SignInOutcome.unrecognizedFailure e) =
      AuthResult.raised e) :=
  ⟨rfl, rfl, fun _ => rfl, fun _ => rfl⟩

/-- Claim C10: the dashboard layout redirects to /login and renders no
protected content when the session capability returns no session, and renders
the wrapped children unobstructed when a session is present. -/
theorem C10_session_gate (children : String) :
    Layout none children = RenderResult.redirectTo "/login" ∧
    ∀ s : Session, Layout (some s) children = RenderResult.view children :=
  ⟨rfl, fun _ => rfl⟩

end Nextapp
